import Mathlib

/-!
Verification development for the typed-session crate: a shallow embedding of
the session state machine (src/session.rs), the session-store orchestrator
(src/session_store.rs), the error model (src/error.rs) and the reference
in-memory store (src/memory_store.rs), together with theorems settling the
frozen claims about the specification.

Modelling conventions:
* chrono DateTime and Duration are modelled as integers (Instant).
* The blake3 digest of a cookie value (an external crate) is modelled as an
  abstract injective digest: the SessionId structure simply wraps the hashed
  input, preserving exactly the equality semantics the code relies on.
* Rust panics (including the unreachable Invalid sentinel state) are modelled
  as Option.none or by dedicated panicked constructors in outcome types.
* Stateful code is modelled by explicit state passing; the connector trait
  becomes a structure of state-transformer fields.
* The possibly infinite retry loop (maximum_retries_on_id_collision = None)
  is modelled with an explicit fuel argument; running out of fuel yields the
  dedicated looping outcome, never an error.
-/

set_option autoImplicit false

namespace TypedSession

/-- Instant models chrono DateTime of Utc as an integer timestamp; Duration is
likewise an integer. -/
abbrev Instant := Int

/-- Model of SessionExpiry from src/session.rs: either an absolute timestamp
or never. -/
inductive SessionExpiry where
  | dateTime (t : Instant)
  | never
deriving DecidableEq, Repr

/-- Model of SessionId from src/session.rs. The source stores the blake3
digest of the cookie value; blake3 is an external crate, so the digest is
modelled abstractly by keeping the hashed input itself (an injective map,
matching the cryptographic intent). -/
structure SessionId where
  hash : String
deriving DecidableEq, Repr

/-- Model of SessionId::from_cookie_value from src/session.rs. -/
def SessionId.from_cookie_value (cookie_value : String) : SessionId :=
  ⟨cookie_value⟩

/-- Model of SessionState from src/session.rs: the six public states plus
the internal Invalid sentinel. -/
inductive SessionState (D : Type) where
  | newUnchanged (expiry : SessionExpiry) (data : D)
  | newChanged (expiry : SessionExpiry) (data : D)
  | unchanged (current_id : SessionId) (expiry : SessionExpiry) (data : D)
  | changed (current_id : SessionId) (expiry : SessionExpiry) (data : D)
  | deleted (current_id : SessionId)
  | newDeleted
  | invalid
deriving DecidableEq, Repr

/-- Model of SessionState::expiry from src/session.rs. The source panics on
deleted states and is unreachable on Invalid; both are modelled as none. -/
def SessionState.expiry? {D : Type} : SessionState D → Option SessionExpiry
  | .newUnchanged expiry _ => some expiry
  | .newChanged expiry _ => some expiry
  | .unchanged _ expiry _ => some expiry
  | .changed _ expiry _ => some expiry
  | .deleted _ => none
  | .newDeleted => none
  | .invalid => none

/-- Model of SessionState::change_expiry from src/session.rs: Unchanged is
promoted to Changed, already-changed states stay, NewUnchanged stays (an
expiry change alone is not enough reason to store the session), deleted
states panic (none). -/
def SessionState.change_expiry {D : Type} : SessionState D → Option (SessionState D)
  | .unchanged current_id expiry data => some (.changed current_id expiry data)
  | .changed current_id expiry data => some (.changed current_id expiry data)
  | .newChanged expiry data => some (.newChanged expiry data)
  | .newUnchanged expiry data => some (.newUnchanged expiry data)
  | .deleted _ => none
  | .newDeleted => none
  | .invalid => none

/-- Model of writing through SessionState::expiry_mut from src/session.rs:
first change_expiry runs, then the expiry field of the resulting state is
overwritten. The Unchanged branch after change_expiry is unreachable in the
source and modelled as none. -/
def SessionState.write_expiry {D : Type} (st : SessionState D) (new : SessionExpiry) :
    Option (SessionState D) :=
  (st.change_expiry).bind fun st' =>
    match st' with
    | .newUnchanged _ data => some (.newUnchanged new data)
    | .newChanged _ data => some (.newChanged new data)
    | .changed current_id _ data => some (.changed current_id new data)
    | .deleted _ => none
    | .newDeleted => none
    | .unchanged _ _ _ => none
    | .invalid => none

/-- Model of Session::set_expiry from src/session.rs. -/
def SessionState.set_expiry {D : Type} (st : SessionState D) (expiry : Instant) :
    Option (SessionState D) :=
  st.write_expiry (.dateTime expiry)

/-- Model of Session::do_not_expire from src/session.rs. -/
def SessionState.do_not_expire {D : Type} (st : SessionState D) : Option (SessionState D) :=
  st.write_expiry .never

/-- Model of Session::expire_in from src/session.rs (now plus ttl). -/
def SessionState.expire_in {D : Type} (st : SessionState D) (now ttl : Instant) :
    Option (SessionState D) :=
  st.write_expiry (.dateTime (now + ttl))

/-- Model of Session::regenerate from src/session.rs: it only applies the
change marker via change_expiry. -/
def SessionState.regenerate {D : Type} (st : SessionState D) : Option (SessionState D) :=
  st.change_expiry

/-- Model of Session::is_expired from src/session.rs: true iff the expiry is
a timestamp strictly less than now. Deleted states panic on the inner expiry
access, modelled as none. -/
def SessionState.is_expired {D : Type} (st : SessionState D) (now : Instant) : Option Bool :=
  (st.expiry?).map fun e =>
    match e with
    | .dateTime expiry => decide (expiry < now)
    | .never => false

/-- Model of WriteSessionResult from src/session_store.rs with unit payload,
as returned by the connector CRUD methods. -/
inductive WriteSessionResult where
  | ok
  | sessionIdExists
deriving DecidableEq, Repr

/-- Model of Error from src/error.rs, generic over the connector error type.
The sessionStoreConnector variant is the wrap produced by the From impl at
src/error.rs lines 35 to 41. -/
inductive Error (E : Type) where
  | updatedSessionDoesNotExist
  | maximumSessionIdGenerationTriesReached (maximum : Nat)
  | wrongCookieLength (expected actual : Nat)
  | sessionStoreConnector (e : E)
deriving DecidableEq, Repr

/-- Model of SessionCookieCommand from src/session_store.rs. -/
inductive SessionCookieCommand where
  | set (cookie_value : String) (expiry : SessionExpiry)
  | delete
  | doNothing
deriving DecidableEq, Repr

/-- Model of SessionRenewalStrategy from src/session_store.rs. -/
inductive SessionRenewalStrategy where
  | ignore
  | automaticRenewal (time_to_live maximum_remaining_time_to_live_for_renewal : Instant)
deriving DecidableEq, Repr

/-- Model of SessionRenewalStrategy::apply_to_session from src/session_store.rs
lines 351 to 377. Reading the expiry of a deleted session panics (none). -/
def SessionRenewalStrategy.apply_to_session {D : Type} (strategy : SessionRenewalStrategy)
    (st : SessionState D) (now : Instant) : Option (SessionState D) :=
  match strategy with
  | .ignore => some st
  | .automaticRenewal time_to_live maximum_remaining_time_to_live_for_renewal =>
    let new_expiry := now + time_to_live
    match st.expiry? with
    | none => none
    | some (.dateTime old_expiry) =>
      if old_expiry - now ≤ maximum_remaining_time_to_live_for_renewal then
        st.set_expiry new_expiry
      else
        some st
    | some .never => st.set_expiry new_expiry

/-- Model of the SessionStoreConnector trait from src/session_store.rs as a
structure of state transformers: C is the connector state, E the connector
error type. Each method returns its result together with the next state. -/
structure Connector (D C E : Type) where
  maximum_retries_on_id_collision : C → Option Nat
  create_session : SessionId → SessionExpiry → D → C → (Except (Error E) WriteSessionResult) × C
  read_session : SessionId → C → (Except (Error E) (Option (SessionState D))) × C
  update_session : SessionId → SessionId → SessionExpiry → D → C →
    (Except (Error E) WriteSessionResult) × C
  delete_session : SessionId → C → (Except (Error E) Unit) × C
  clear : C → (Except (Error E) Unit) × C

/-- Outcome of SessionStore::try_store_session from src/session_store.rs:
ok cmd models Ok(WriteSessionResult::Ok(command)), sessionIdExists models
Ok(WriteSessionResult::SessionIdExists), error models an Err propagated from
the connector, and panicked models the unreachable branches. -/
inductive TryOutcome (E : Type) where
  | ok (cmd : SessionCookieCommand)
  | sessionIdExists
  | error (e : Error E)
  | panicked
deriving DecidableEq, Repr

/-- Model of SessionStore::try_store_session from src/session_store.rs lines
149 to 191. The cookie generator is modelled as the stream gen of generated
cookie values; k is the index of the next generator call. -/
def try_store_session {D C E : Type} (gen : Nat → String) (k : Nat) (st : SessionState D)
    (conn : Connector D C E) (c : C) : TryOutcome E × C :=
  match st with
  | .newChanged expiry data =>
    let cookie_value := gen k
    let id := SessionId.from_cookie_value cookie_value
    (match conn.create_session id expiry data c with
     | (.ok .ok, c') => (.ok (.set cookie_value expiry), c')
     | (.ok .sessionIdExists, c') => (.sessionIdExists, c')
     | (.error e, c') => (.error e, c'))
  | .changed previous_id expiry data =>
    let cookie_value := gen k
    let current_id := SessionId.from_cookie_value cookie_value
    (match conn.update_session current_id previous_id expiry data c with
     | (.ok .ok, c') => (.ok (.set cookie_value expiry), c')
     | (.ok .sessionIdExists, c') => (.sessionIdExists, c')
     | (.error e, c') => (.error e, c'))
  | .deleted current_id =>
    (match conn.delete_session current_id c with
     | (.ok _, c') => (.ok .delete, c')
     | (.error e, c') => (.error e, c'))
  | _ => (.panicked, c)

/-- Outcome of SessionStore::store_session: ok models Ok(command), error
models Err, panicked models a panic, and looping marks that the unbounded
retry loop (maximum_retries_on_id_collision = None) exceeded its fuel. -/
inductive StoreOutcome (E : Type) where
  | ok (cmd : SessionCookieCommand)
  | error (e : Error E)
  | looping
  | panicked
deriving DecidableEq, Repr

/-- Model of the retry loop body shared by both branches of
SessionStore::store_session: run at most the given number of attempts,
consuming one generator index per attempt; return none when every attempt
returned SessionIdExists (the for loop fell through / the infinite loop is
still running). -/
def retry_loop {C E : Type} (try_ : Nat → C → TryOutcome E × C) :
    Nat → Nat → C → Option (StoreOutcome E) × C
  | 0, _, c => (none, c)
  | n + 1, k, c =>
    match try_ k c with
    | (.ok cmd, c') => (some (.ok cmd), c')
    | (.error e, c') => (some (.error e), c')
    | (.panicked, c') => (some .panicked, c')
    | (.sessionIdExists, c') => retry_loop try_ n (k + 1) c'

/-- Helper for the dispatch of SessionStore::store_session: the states
matched by the matches! at src/session_store.rs lines 110 to 115. -/
def SessionState.is_changed_or_deleted_for_store {D : Type} : SessionState D → Bool
  | .newChanged _ _ => true
  | .changed _ _ _ => true
  | .deleted _ => true
  | _ => false

/-- Model of SessionStore::store_session from src/session_store.rs lines 105
to 147. For a NewChanged session the renewal strategy is applied first; then
the retry loop runs, bounded by maximum_retries_on_id_collision when that is
some R (exhaustion yields MaximumSessionIdGenerationTriesReached R) and by
the fuel argument when it is none (exhaustion there means the source is
still looping). All other states return DoNothing without touching the
connector. -/
def store_session {D C E : Type} (gen : Nat → String) (k : Nat) (fuel : Nat)
    (strategy : SessionRenewalStrategy) (session : SessionState D)
    (conn : Connector D C E) (c : C) (now : Instant) : StoreOutcome E × C :=
  if session.is_changed_or_deleted_for_store then
    match
      (match session with
       | .newChanged _ _ => strategy.apply_to_session session now
       | _ => some session) with
    | none => (.panicked, c)
    | some session =>
      match conn.maximum_retries_on_id_collision c with
      | some maximum_retries_on_collision =>
        match retry_loop (fun k c => try_store_session gen k session conn c)
            maximum_retries_on_collision k c with
        | (some out, c') => (out, c')
        | (none, c') =>
          (.error (.maximumSessionIdGenerationTriesReached maximum_retries_on_collision), c')
      | none =>
        match retry_loop (fun k c => try_store_session gen k session conn c) fuel k c with
        | (some out, c') => (out, c')
        | (none, c') => (.looping, c')
  else
    (.ok .doNothing, c)

/-- Outcome of SessionStore::load_session: ok models Ok(Option), error
models Err, panicked models a panic inside the call. -/
inductive LoadOutcome (D E : Type) where
  | ok (session : Option (SessionState D))
  | error (e : Error E)
  | panicked
deriving DecidableEq, Repr

/-- Model of COOKIE_LENGTH of DefaultSessionCookieGenerator from
src/session_store/cookie_generator/mod.rs. -/
def DefaultSessionCookieGenerator.COOKIE_LENGTH : Nat := 32

/-- Model of SessionStore::load_session from src/session_store.rs lines 207
to 236. L is the COOKIE_LENGTH of the cookie generator type; the byte length
of the cookie string is its UTF-8 size, as in cookie_value.as_bytes().len(). -/
def load_session {D C E : Type} (L : Nat) (strategy : SessionRenewalStrategy)
    (cookie_value : String) (conn : Connector D C E) (c : C) (now : Instant) :
    LoadOutcome D E × C :=
  if cookie_value.utf8ByteSize ≠ L then
    (.error (.wrongCookieLength L cookie_value.utf8ByteSize), c)
  else
    let session_id := SessionId.from_cookie_value cookie_value
    match conn.read_session session_id c with
    | (.error e, c') => (.error e, c')
    | (.ok none, c') => (.ok none, c')
    | (.ok (some session), c') =>
      match session.is_expired now with
      | none => (.panicked, c')
      | some true => (.ok none, c')
      | some false =>
        match strategy.apply_to_session session now with
        | none => (.panicked, c')
        | some session => (.ok (some session), c')

/-- Model of SessionBody from src/memory_store.rs. -/
structure SessionBody (D : Type) where
  current_id : SessionId
  expiry : SessionExpiry
  data : D
deriving DecidableEq, Repr

/-- Model of Operation from src/memory_store.rs, the entries recorded by the
operation logger of the memory store. -/
inductive Operation (D : Type) where
  | createSession (id : SessionId) (expiry : SessionExpiry) (data : D)
  | readSession (id : SessionId)
  | updateSession (current_id previous_id : SessionId) (expiry : SessionExpiry) (data : D)
  | deleteSession (current_id : SessionId)
  | clear
deriving DecidableEq, Repr

/-- Model of the session_map HashMap of MemoryStoreData as an association
list with unique keys: lookup. -/
def mapGet {D : Type} (m : List (SessionId × SessionBody D)) (k : SessionId) :
    Option (SessionBody D) :=
  (m.find? fun p => decide (p.1 = k)).map (·.2)

/-- Model of HashMap::contains_key on the session map. -/
def mapContainsKey {D : Type} (m : List (SessionId × SessionBody D)) (k : SessionId) : Bool :=
  (mapGet m k).isSome

/-- Model of HashMap::remove on the session map: drop every binding of the
key (the map keeps keys unique, so at most one exists). -/
def mapErase {D : Type} (m : List (SessionId × SessionBody D)) (k : SessionId) :
    List (SessionId × SessionBody D) :=
  m.filter fun p => !decide (p.1 = k)

/-- Model of HashMap::insert on the session map: bind the key to the value,
replacing any previous binding. -/
def mapInsert {D : Type} (m : List (SessionId × SessionBody D)) (k : SessionId)
    (v : SessionBody D) : List (SessionId × SessionBody D) :=
  (k, v) :: mapErase m k

/-- Model of MemoryStoreData from src/memory_store.rs, with the DefaultLogger
operation log inlined as a list of operations. -/
structure MemoryStoreData (D : Type) where
  session_map : List (SessionId × SessionBody D)
  log : List (Operation D)
  maximum_retries_on_id_collision : Option Nat
deriving DecidableEq, Repr

/-- Model of MemoryStore::create_session from src/memory_store.rs lines 44
to 62: log, then insert unless the id already exists. -/
def MemoryStore.create_session {D : Type} (id : SessionId) (expiry : SessionExpiry) (data : D)
    (store : MemoryStoreData D) : (Except (Error String) WriteSessionResult) × MemoryStoreData D :=
  let store := { store with log := store.log ++ [.createSession id expiry data] }
  if mapContainsKey store.session_map id then
    (.ok .sessionIdExists, store)
  else
    (.ok .ok,
      { store with session_map := mapInsert store.session_map id ⟨id, expiry, data⟩ })

/-- Model of MemoryStore::read_session from src/memory_store.rs lines 64 to
71: log, then reconstruct an Unchanged session from the stored body. -/
def MemoryStore.read_session {D : Type} (id : SessionId) (store : MemoryStoreData D) :
    (Except (Error String) (Option (SessionState D))) × MemoryStoreData D :=
  let store := { store with log := store.log ++ [.readSession id] }
  (.ok ((mapGet store.session_map id).map fun body =>
    .unchanged body.current_id body.expiry body.data), store)

/-- Model of MemoryStore::update_session from src/memory_store.rs lines 73
to 97: log; if the new id exists answer SessionIdExists; otherwise remove
the row keyed by previous_id, rebind it under current_id with the new expiry
and data; if no such row exists fail with the anyhow message error, which
the orchestrator surfaces through the connector-error wrap of src/error.rs. -/
def MemoryStore.update_session {D : Type} (current_id previous_id : SessionId)
    (expiry : SessionExpiry) (data : D) (store : MemoryStoreData D) :
    (Except (Error String) WriteSessionResult) × MemoryStoreData D :=
  let store :=
    { store with log := store.log ++ [.updateSession current_id previous_id expiry data] }
  if mapContainsKey store.session_map current_id then
    (.ok .sessionIdExists, store)
  else
    match mapGet store.session_map previous_id with
    | some session_body =>
      let session_body :=
        { session_body with current_id := current_id, expiry := expiry, data := data }
      (.ok .ok,
        { store with session_map :=
            mapInsert (mapErase store.session_map previous_id) current_id session_body })
    | none => (.error (.sessionStoreConnector "Tried to update a non-existing session"), store)

/-- Model of MemoryStore::delete_session from src/memory_store.rs lines 99
to 105: log, then remove the row. -/
def MemoryStore.delete_session {D : Type} (id : SessionId) (store : MemoryStoreData D) :
    (Except (Error String) Unit) × MemoryStoreData D :=
  let store : MemoryStoreData D := { store with log := store.log ++ [.deleteSession id] }
  (.ok (), { store with session_map := mapErase store.session_map id })

/-- Model of MemoryStore::clear from src/memory_store.rs lines 107 to 112. -/
def MemoryStore.clear {D : Type} (store : MemoryStoreData D) :
    (Except (Error String) Unit) × MemoryStoreData D :=
  let store : MemoryStoreData D := { store with log := store.log ++ [.clear] }
  (.ok (), { store with session_map := [] })

/-- The memory store packaged as a connector, with the anyhow error type of
src/memory_store.rs modelled as String. -/
def MemoryStore.connector (D : Type) : Connector D (MemoryStoreData D) String where
  maximum_retries_on_id_collision := fun store => store.maximum_retries_on_id_collision
  create_session := MemoryStore.create_session
  read_session := MemoryStore.read_session
  update_session := MemoryStore.update_session
  delete_session := MemoryStore.delete_session
  clear := MemoryStore.clear

/-- Model of MemoryStore::new from src/memory_store.rs lines 181 to 191: an
empty map, an empty log, and no retry bound. -/
def MemoryStore.empty (D : Type) : MemoryStoreData D :=
  ⟨[], [], none⟩

/-- Model of MemoryStore::delete_expired_sessions from src/memory_store.rs
lines 136 to 150: retain exactly the rows whose expiry is Never or a
timestamp strictly greater than now. -/
def MemoryStore.delete_expired_sessions {D : Type} (now : Instant) (store : MemoryStoreData D) :
    MemoryStoreData D :=
  { store with session_map := store.session_map.filter fun p =>
      match p.2.expiry with
      | .dateTime expiry => decide (now < expiry)
      | .never => true }

/-- Operation alphabet for the store invariant claim: the create and update
operations of the memory store. -/
inductive StoreOp (D : Type) where
  | create (id : SessionId) (expiry : SessionExpiry) (data : D)
  | update (current_id previous_id : SessionId) (expiry : SessionExpiry) (data : D)
deriving DecidableEq, Repr

/-- Run a sequence of create and update operations against the memory
store, keeping the state each call returns (a failed call leaves the
session map unchanged, so this covers every sequence of successful
operations as well). -/
def apply_ops {D : Type} : List (StoreOp D) → MemoryStoreData D → MemoryStoreData D
  | [], store => store
  | op :: ops, store =>
    match op with
    | .create id e d => apply_ops ops (MemoryStore.create_session id e d store).2
    | .update cur prev e d => apply_ops ops (MemoryStore.update_session cur prev e d store).2

/-- Well formedness of the session map: keys are pairwise distinct and every
stored body's current_id equals the key it is stored under. -/
def mapWf {D : Type} (m : List (SessionId × SessionBody D)) : Prop :=
  (m.map Prod.fst).Nodup ∧ ∀ p ∈ m, p.2.current_id = p.1

/-- Record of one connector call, used to observe which CRUD operations the
orchestrator issues (the verification counterpart of the operation logger
the memory store itself carries). -/
inductive ConnCall (D : Type) where
  | create (id : SessionId) (expiry : SessionExpiry) (data : D)
  | read (id : SessionId)
  | update (current_id previous_id : SessionId) (expiry : SessionExpiry) (data : D)
  | delete (id : SessionId)
  | clearAll
deriving DecidableEq, Repr

/-- Wrap a connector so that its state additionally records the list of
calls issued, in order. The wrapped connector behaves exactly like the
underlying one. -/
def Connector.withLog {D C E : Type} (conn : Connector D C E) :
    Connector D (C × List (ConnCall D)) E where
  maximum_retries_on_id_collision := fun s => conn.maximum_retries_on_id_collision s.1
  create_session := fun id e d s =>
    ((conn.create_session id e d s.1).1,
      ((conn.create_session id e d s.1).2, s.2 ++ [.create id e d]))
  read_session := fun id s =>
    ((conn.read_session id s.1).1, ((conn.read_session id s.1).2, s.2 ++ [.read id]))
  update_session := fun cur prev e d s =>
    ((conn.update_session cur prev e d s.1).1,
      ((conn.update_session cur prev e d s.1).2, s.2 ++ [.update cur prev e d]))
  delete_session := fun id s =>
    ((conn.delete_session id s.1).1, ((conn.delete_session id s.1).2, s.2 ++ [.delete id]))
  clear := fun s => ((conn.clear s.1).1, ((conn.clear s.1).2, s.2 ++ [.clearAll]))

/-- Common shape of one logged write attempt: run the underlying operation,
append its call record, and classify the result as the retry loop does. -/
def logged_try {D C E : Type} (op : Nat → C → (Except (Error E) WriteSessionResult) × C)
    (call : Nat → ConnCall D) (cmd : Nat → SessionCookieCommand) :
    Nat → (C × List (ConnCall D)) → TryOutcome E × (C × List (ConnCall D)) :=
  fun j s =>
    match op j s.1 with
    | (.ok .ok, c') => (.ok (cmd j), (c', s.2 ++ [call j]))
    | (.ok .sessionIdExists, c') => (.sessionIdExists, (c', s.2 ++ [call j]))
    | (.error err, c') => (.error err, (c', s.2 ++ [call j]))

/-- The always colliding test connector: every write answers
SessionIdExists and bumps a counter; the retry bound is two. -/
def collide_connector : Connector Int Nat String where
  maximum_retries_on_id_collision := fun _ => some 2
  create_session := fun _ _ _ c => (.ok .sessionIdExists, c + 1)
  read_session := fun _ c => (.ok none, c)
  update_session := fun _ _ _ _ c => (.ok .sessionIdExists, c + 1)
  delete_session := fun _ c => (.ok (), c)
  clear := fun c => (.ok (), c)

/-- C3: mutably accessing the expiry (set_expiry, do_not_expire, expire_in,
regenerate) of an Unchanged session promotes it to Changed; on NewUnchanged
the session stays NewUnchanged (with the new expiry value for the setters);
NewChanged and Changed sessions stay in their state. -/
theorem expiry_mutation_state_transitions {D : Type} (current_id : SessionId)
    (e : SessionExpiry) (d : D) (t now ttl : Instant) :
    ((SessionState.unchanged current_id e d).set_expiry t
        = some (.changed current_id (.dateTime t) d)
      ∧ (SessionState.unchanged current_id e d).do_not_expire
        = some (.changed current_id .never d)
      ∧ (SessionState.unchanged current_id e d).expire_in now ttl
        = some (.changed current_id (.dateTime (now + ttl)) d)
      ∧ (SessionState.unchanged current_id e d).regenerate = some (.changed current_id e d))
  ∧ ((SessionState.newUnchanged e d).set_expiry t = some (.newUnchanged (.dateTime t) d)
      ∧ (SessionState.newUnchanged e d).do_not_expire = some (.newUnchanged .never d)
      ∧ (SessionState.newUnchanged e d).expire_in now ttl
        = some (.newUnchanged (.dateTime (now + ttl)) d)
      ∧ (SessionState.newUnchanged e d).regenerate = some (.newUnchanged e d))
  ∧ ((SessionState.newChanged e d).set_expiry t = some (.newChanged (.dateTime t) d)
      ∧ (SessionState.newChanged e d).do_not_expire = some (.newChanged .never d)
      ∧ (SessionState.newChanged e d).expire_in now ttl
        = some (.newChanged (.dateTime (now + ttl)) d)
      ∧ (SessionState.newChanged e d).regenerate = some (.newChanged e d))
  ∧ ((SessionState.changed current_id e d).set_expiry t
        = some (.changed current_id (.dateTime t) d)
      ∧ (SessionState.changed current_id e d).do_not_expire
        = some (.changed current_id .never d)
      ∧ (SessionState.changed current_id e d).expire_in now ttl
        = some (.changed current_id (.dateTime (now + ttl)) d)
      ∧ (SessionState.changed current_id e d).regenerate = some (.changed current_id e d)) :=
  ⟨⟨rfl, rfl, rfl, rfl⟩, ⟨rfl, rfl, rfl, rfl⟩, ⟨rfl, rfl, rfl, rfl⟩, ⟨rfl, rfl, rfl, rfl⟩⟩

/-- C4: for a session in the NewUnchanged, Unchanged or NewDeleted state,
store_session returns DoNothing and leaves every connector in its initial
state, i.e. no create, read, update or delete call is issued. -/
theorem store_session_do_nothing_states {D C E : Type} (gen : Nat → String) (k fuel : Nat)
    (strategy : SessionRenewalStrategy) (conn : Connector D C E) (c : C) (now : Instant)
    (current_id : SessionId) (e : SessionExpiry) (d : D) :
    store_session gen k fuel strategy (.newUnchanged e d) conn c now = (.ok .doNothing, c)
  ∧ store_session gen k fuel strategy (.unchanged current_id e d) conn c now
      = (.ok .doNothing, c)
  ∧ store_session gen k fuel strategy .newDeleted conn c now = (.ok .doNothing, c) :=
  ⟨rfl, rfl, rfl⟩

/-- C1: evaluation of the code at the failing input. For a Changed session
whose previous id has no stored row, the memory store update_session of
src/memory_store.rs returns its anyhow message error, so store_session
surfaces the connector-error wrap and NOT UpdatedSessionDoesNotExist, which
is the error the spec and the repository test
tests/test.rs test_concurrent_modification expect. -/
theorem update_missing_session_error_eval :
    store_session (fun _ => "ck0") 0 0 .ignore
        (SessionState.changed ⟨"old"⟩ .never (5 : Int)) (MemoryStore.connector Int)
        ⟨[], [], some 1⟩ 0
      = (.error (.sessionStoreConnector "Tried to update a non-existing session"),
          ⟨[], [.updateSession ⟨"ck0"⟩ ⟨"old"⟩ .never 5], some 1⟩)
  ∧ (store_session (fun _ => "ck0") 0 0 .ignore
        (SessionState.changed ⟨"old"⟩ .never (5 : Int)) (MemoryStore.connector Int)
        ⟨[], [], some 1⟩ 0).1
      ≠ .error .updatedSessionDoesNotExist := by
  exact ⟨rfl, by decide⟩

/-- C10: delete_expired_sessions keeps exactly the rows whose expiry is
Never or a timestamp strictly greater than now, hence removes rows whose
expiry timestamp is less than or equal to now; in particular a row whose
expiry equals now exactly is deleted even though is_expired reports that
session as not expired, so the two boundaries disagree at the instant of
expiry. -/
theorem delete_expired_boundary {D : Type} (now : Instant) (store : MemoryStoreData D) :
    (∀ p : SessionId × SessionBody D,
        p ∈ (MemoryStore.delete_expired_sessions now store).session_map ↔
          p ∈ store.session_map ∧
            (p.2.expiry = .never ∨ ∃ t, p.2.expiry = .dateTime t ∧ now < t))
  ∧ (∀ (id : SessionId) (d : D),
      (MemoryStore.delete_expired_sessions now
          ⟨[(id, ⟨id, .dateTime now, d⟩)], store.log,
            store.maximum_retries_on_id_collision⟩).session_map = []
      ∧ (SessionState.unchanged id (.dateTime now) d).is_expired now = some false) := by
  constructor
  · intro p
    simp only [MemoryStore.delete_expired_sessions, List.mem_filter]
    constructor
    · rintro ⟨hm, hf⟩
      refine ⟨hm, ?_⟩
      rcases he : p.2.expiry with t | _
      · rw [he] at hf
        exact Or.inr ⟨t, rfl, by simpa using hf⟩
      · exact Or.inl rfl
    · rintro ⟨hm, hne | ⟨t, he, ht⟩⟩
      · exact ⟨hm, by simp [hne]⟩
      · exact ⟨hm, by simp [he, ht]⟩
  · intro id d
    constructor
    · simp [MemoryStore.delete_expired_sessions]
    · simp [SessionState.is_expired, SessionState.expiry?]

/-- Witness for the C10 theorem at a concrete store and time: a never
expiring row survives the cleanup. -/
theorem delete_expired_boundary_witness :
    (⟨⟨"a"⟩, ⟨⟨"a"⟩, .never, (0 : Int)⟩⟩ : SessionId × SessionBody Int)
      ∈ (MemoryStore.delete_expired_sessions 0
          ⟨[(⟨"a"⟩, ⟨⟨"a"⟩, .never, 0⟩)], [], none⟩).session_map :=
  ((delete_expired_boundary 0 ⟨[(⟨"a"⟩, ⟨⟨"a"⟩, .never, 0⟩)], [], none⟩).1 _).2
    ⟨by decide, Or.inl rfl⟩

/-- C6: under AutomaticRenewal, applying the renewal at time now rewrites
the expiry to now plus time_to_live exactly when the current expiry is Never
or a timestamp whose remaining lifetime is at most
maximum_remaining_time_to_live_for_renewal; otherwise the session is left
completely untouched, and an untouched Unchanged session causes no write on
store_session. Under Ignore the session is never modified. -/
theorem automatic_renewal_spec {D : Type} (st : SessionState D) (now ttl mrem t : Instant) :
    SessionRenewalStrategy.ignore.apply_to_session st now = some st
  ∧ (st.expiry? = some .never →
      (SessionRenewalStrategy.automaticRenewal ttl mrem).apply_to_session st now
        = st.set_expiry (now + ttl))
  ∧ (st.expiry? = some (.dateTime t) → t - now ≤ mrem →
      (SessionRenewalStrategy.automaticRenewal ttl mrem).apply_to_session st now
        = st.set_expiry (now + ttl))
  ∧ (st.expiry? = some (.dateTime t) → ¬t - now ≤ mrem →
      (SessionRenewalStrategy.automaticRenewal ttl mrem).apply_to_session st now = some st)
  ∧ (∀ (x : Instant) (st' : SessionState D), st.set_expiry x = some st' →
      st'.expiry? = some (.dateTime x))
  ∧ (∀ (C E : Type) (conn : Connector D C E) (c : C) (gen : Nat → String) (k fuel : Nat)
      (strategy : SessionRenewalStrategy) (current_id : SessionId) (e : SessionExpiry) (d : D),
      store_session gen k fuel strategy (.unchanged current_id e d) conn c now
        = (.ok .doNothing, c)) := by
  refine ⟨rfl, ?_, ?_, ?_, ?_, ?_⟩
  · intro h
    simp [SessionRenewalStrategy.apply_to_session, h]
  · intro h ht
    simp [SessionRenewalStrategy.apply_to_session, h, ht]
  · intro h ht
    simp [SessionRenewalStrategy.apply_to_session, h, ht]
  · intro x st' h
    cases st <;> simp [SessionState.set_expiry, SessionState.write_expiry,
      SessionState.change_expiry] at h <;> simp [← h, SessionState.expiry?]
  · intro C E conn c gen k fuel strategy current_id e d
    rfl

/-- Witness for the C6 theorem: a session whose remaining lifetime 3 is
within the renewal bound 5 is renewed to expiry 10, and one with remaining
lifetime 8 is left untouched. -/
theorem automatic_renewal_spec_witness :
    (SessionState.unchanged ⟨"a"⟩ (.dateTime 3) (0 : Int)).expiry? = some (.dateTime 3)
  ∧ (SessionRenewalStrategy.automaticRenewal 10 5).apply_to_session
      (SessionState.unchanged ⟨"a"⟩ (.dateTime 3) (0 : Int)) 0
      = (SessionState.unchanged ⟨"a"⟩ (.dateTime 3) (0 : Int)).set_expiry 10
  ∧ (SessionRenewalStrategy.automaticRenewal 10 5).apply_to_session
      (SessionState.unchanged ⟨"a"⟩ (.dateTime 8) (0 : Int)) 0
      = some (SessionState.unchanged ⟨"a"⟩ (.dateTime 8) (0 : Int)) :=
  ⟨rfl,
    (automatic_renewal_spec (SessionState.unchanged ⟨"a"⟩ (.dateTime 3) (0 : Int))
        0 10 5 3).2.2.1 rfl (by decide),
    (automatic_renewal_spec (SessionState.unchanged ⟨"a"⟩ (.dateTime 8) (0 : Int))
        0 10 5 8).2.2.2.1 rfl (by decide)⟩

/-- C8: a cookie whose byte length differs from COOKIE_LENGTH makes
load_session fail with WrongCookieLength before any connector call (every
connector state is returned untouched), while a cookie of the right length
is never rejected with WrongCookieLength, regardless of its content. -/
theorem load_session_cookie_length_check {D C E : Type} (strategy : SessionRenewalStrategy)
    (cookie_value : String) (conn : Connector D C E) (c : C) (now : Instant)
    (m : MemoryStoreData D) :
    (cookie_value.utf8ByteSize ≠ DefaultSessionCookieGenerator.COOKIE_LENGTH →
      load_session DefaultSessionCookieGenerator.COOKIE_LENGTH strategy cookie_value conn c now
        = (.error (.wrongCookieLength DefaultSessionCookieGenerator.COOKIE_LENGTH
            cookie_value.utf8ByteSize), c))
  ∧ (cookie_value.utf8ByteSize = DefaultSessionCookieGenerator.COOKIE_LENGTH →
      ∀ expected actual : Nat,
        (load_session DefaultSessionCookieGenerator.COOKIE_LENGTH strategy cookie_value
            (MemoryStore.connector D) m now).1
          ≠ .error (.wrongCookieLength expected actual)) := by
  constructor
  · intro h
    simp [load_session, h]
  · intro h expected actual
    simp only [load_session, MemoryStore.connector, MemoryStore.read_session]
    rw [if_neg (not_not_intro h)]
    cases hget : mapGet m.session_map (SessionId.from_cookie_value cookie_value) with
    | none => simp
    | some body =>
      simp only [Option.map]
      cases hexp : (SessionState.unchanged body.current_id body.expiry body.data :
          SessionState D).is_expired now with
      | none => simp [hexp]
      | some b =>
        cases b with
        | false =>
          cases happ : strategy.apply_to_session
              (SessionState.unchanged body.current_id body.expiry body.data) now with
          | none => simp [hexp, happ]
          | some st => simp [hexp, happ]
        | true => simp [hexp]

/-- Witness for the C8 theorem: the empty cookie is rejected with
WrongCookieLength 32 0, and a 32 byte cookie is never rejected for length. -/
theorem load_session_cookie_length_check_witness :
    ("".utf8ByteSize ≠ DefaultSessionCookieGenerator.COOKIE_LENGTH
      ∧ load_session DefaultSessionCookieGenerator.COOKIE_LENGTH .ignore ""
          (MemoryStore.connector Int) (MemoryStore.empty Int) 0
        = (.error (.wrongCookieLength DefaultSessionCookieGenerator.COOKIE_LENGTH 0),
           MemoryStore.empty Int))
  ∧ ("AAAAAAAAAAAAAAAAAAAAAAAAAAAAAAAA".utf8ByteSize
        = DefaultSessionCookieGenerator.COOKIE_LENGTH
      ∧ (load_session DefaultSessionCookieGenerator.COOKIE_LENGTH .ignore
            "AAAAAAAAAAAAAAAAAAAAAAAAAAAAAAAA" (MemoryStore.connector Int)
            (MemoryStore.empty Int) 0).1
          ≠ .error (.wrongCookieLength 32 32)) :=
  ⟨⟨by decide,
    (load_session_cookie_length_check .ignore "" (MemoryStore.connector Int)
        (MemoryStore.empty Int) 0 (MemoryStore.empty Int)).1 (by decide)⟩,
   ⟨by decide,
    (load_session_cookie_length_check .ignore "AAAAAAAAAAAAAAAAAAAAAAAAAAAAAAAA"
        (MemoryStore.connector Int) (MemoryStore.empty Int) 0 (MemoryStore.empty Int)).2
      (by decide) 32 32⟩⟩

/-- C9: loading a stored but expired session (expiry strictly before now)
returns Ok none while issuing only the read to the connector: the session
map is untouched, no delete is logged. A session whose expiry equals now
exactly, or is Never, is not considered expired and is returned. -/
theorem load_session_expired_no_delete {D : Type} (strategy : SessionRenewalStrategy)
    (cookie_value : String) (m : MemoryStoreData D) (now t : Instant) (body : SessionBody D)
    (hlen : cookie_value.utf8ByteSize = DefaultSessionCookieGenerator.COOKIE_LENGTH)
    (hget : mapGet m.session_map (SessionId.from_cookie_value cookie_value) = some body) :
    (body.expiry = .dateTime t → t < now →
      load_session DefaultSessionCookieGenerator.COOKIE_LENGTH strategy cookie_value
          (MemoryStore.connector D) m now
        = (.ok none,
            { m with log := m.log ++ [.readSession (SessionId.from_cookie_value cookie_value)] }))
  ∧ (body.expiry = .dateTime now →
      (SessionState.unchanged body.current_id body.expiry body.data).is_expired now = some false
      ∧ load_session DefaultSessionCookieGenerator.COOKIE_LENGTH .ignore cookie_value
          (MemoryStore.connector D) m now
        = (.ok (some (.unchanged body.current_id body.expiry body.data)),
            { m with log := m.log ++ [.readSession (SessionId.from_cookie_value cookie_value)] }))
  ∧ (body.expiry = .never →
      (SessionState.unchanged body.current_id body.expiry body.data).is_expired now = some false
      ∧ load_session DefaultSessionCookieGenerator.COOKIE_LENGTH .ignore cookie_value
          (MemoryStore.connector D) m now
        = (.ok (some (.unchanged body.current_id body.expiry body.data)),
            { m with log := m.log ++ [.readSession (SessionId.from_cookie_value cookie_value)] })) := by
  refine ⟨?_, ?_, ?_⟩
  · intro hexp ht
    simp [load_session, hlen, MemoryStore.connector, MemoryStore.read_session, hget,
      SessionState.is_expired, SessionState.expiry?, hexp, ht]
  · intro hexp
    constructor
    · simp [SessionState.is_expired, SessionState.expiry?, hexp]
    · simp [load_session, hlen, MemoryStore.connector, MemoryStore.read_session, hget,
        SessionState.is_expired, SessionState.expiry?, hexp,
        SessionRenewalStrategy.apply_to_session]
  · intro hexp
    constructor
    · simp [SessionState.is_expired, SessionState.expiry?, hexp]
    · simp [load_session, hlen, MemoryStore.connector, MemoryStore.read_session, hget,
        SessionState.is_expired, SessionState.expiry?, hexp,
        SessionRenewalStrategy.apply_to_session]

/-- Witness for the C9 theorem: a session stored with expiry 3 is not
returned when loaded at time 5, and only the read is logged. -/
theorem load_session_expired_no_delete_witness :
    load_session DefaultSessionCookieGenerator.COOKIE_LENGTH .ignore
        "AAAAAAAAAAAAAAAAAAAAAAAAAAAAAAAA" (MemoryStore.connector Int)
        ⟨[(⟨"AAAAAAAAAAAAAAAAAAAAAAAAAAAAAAAA"⟩,
            ⟨⟨"AAAAAAAAAAAAAAAAAAAAAAAAAAAAAAAA"⟩, .dateTime 3, (7 : Int)⟩)], [], none⟩ 5
      = (.ok none,
          ⟨[(⟨"AAAAAAAAAAAAAAAAAAAAAAAAAAAAAAAA"⟩,
              ⟨⟨"AAAAAAAAAAAAAAAAAAAAAAAAAAAAAAAA"⟩, .dateTime 3, (7 : Int)⟩)],
            [.readSession ⟨"AAAAAAAAAAAAAAAAAAAAAAAAAAAAAAAA"⟩], none⟩) :=
  (load_session_expired_no_delete .ignore "AAAAAAAAAAAAAAAAAAAAAAAAAAAAAAAA"
      ⟨[(⟨"AAAAAAAAAAAAAAAAAAAAAAAAAAAAAAAA"⟩,
          ⟨⟨"AAAAAAAAAAAAAAAAAAAAAAAAAAAAAAAA"⟩, .dateTime 3, (7 : Int)⟩)], [], none⟩ 5 3
      ⟨⟨"AAAAAAAAAAAAAAAAAAAAAAAAAAAAAAAA"⟩, .dateTime 3, (7 : Int)⟩
      (by decide) (by decide)).1 rfl (by decide)

/-- C5 counterexample: under the AutomaticRenewal strategy the load and
store round trip of an unmodified session does NOT return DoNothing. At
time 0, with time_to_live 10 and renewal bound 5, loading a stored session
whose expiry is Never renews it (promoting the state to Changed), and the
following store_session issues an update and returns Set, refuting the
round-trip claim for this renewal strategy. -/
theorem load_store_roundtrip_autorenewal_cex :
    load_session DefaultSessionCookieGenerator.COOKIE_LENGTH (.automaticRenewal 10 5)
        "AAAAAAAAAAAAAAAAAAAAAAAAAAAAAAAA" (MemoryStore.connector Int)
        ⟨[(⟨"AAAAAAAAAAAAAAAAAAAAAAAAAAAAAAAA"⟩,
            ⟨⟨"AAAAAAAAAAAAAAAAAAAAAAAAAAAAAAAA"⟩, .never, (7 : Int)⟩)], [], some 1⟩ 0
      = (.ok (some (.changed ⟨"AAAAAAAAAAAAAAAAAAAAAAAAAAAAAAAA"⟩ (.dateTime 10) 7)),
          ⟨[(⟨"AAAAAAAAAAAAAAAAAAAAAAAAAAAAAAAA"⟩,
              ⟨⟨"AAAAAAAAAAAAAAAAAAAAAAAAAAAAAAAA"⟩, .never, (7 : Int)⟩)],
            [.readSession ⟨"AAAAAAAAAAAAAAAAAAAAAAAAAAAAAAAA"⟩], some 1⟩)
  ∧ (store_session (fun _ => "ck0") 0 0 (.automaticRenewal 10 5)
        (.changed ⟨"AAAAAAAAAAAAAAAAAAAAAAAAAAAAAAAA"⟩ (.dateTime 10) (7 : Int))
        (MemoryStore.connector Int)
        ⟨[(⟨"AAAAAAAAAAAAAAAAAAAAAAAAAAAAAAAA"⟩,
            ⟨⟨"AAAAAAAAAAAAAAAAAAAAAAAAAAAAAAAA"⟩, .never, (7 : Int)⟩)],
          [.readSession ⟨"AAAAAAAAAAAAAAAAAAAAAAAAAAAAAAAA"⟩], some 1⟩ 0).1
      = .ok (.set "ck0" (.dateTime 10))
  ∧ (StoreOutcome.ok (.set "ck0" (.dateTime 10)) : StoreOutcome String)
      ≠ .ok .doNothing := by
  refine ⟨by decide, by decide, by decide⟩

/-- C5 amended: storing a session immediately after loading it, with no
mutation in between, returns DoNothing and issues no further connector
operation, provided the renewal strategy leaves the loaded session
untouched (always the case for Ignore; for AutomaticRenewal exactly when
the expiry is a timestamp whose remaining lifetime exceeds the renewal
bound). -/
theorem load_store_roundtrip_do_nothing {D : Type} (strategy : SessionRenewalStrategy)
    (cookie_value : String) (m : MemoryStoreData D) (now : Instant) (body : SessionBody D)
    (gen : Nat → String) (k fuel : Nat)
    (hlen : cookie_value.utf8ByteSize = DefaultSessionCookieGenerator.COOKIE_LENGTH)
    (hget : mapGet m.session_map (SessionId.from_cookie_value cookie_value) = some body)
    (hexp : (SessionState.unchanged body.current_id body.expiry body.data).is_expired now
        = some false)
    (happ : strategy.apply_to_session (.unchanged body.current_id body.expiry body.data) now
        = some (.unchanged body.current_id body.expiry body.data)) :
    load_session DefaultSessionCookieGenerator.COOKIE_LENGTH strategy cookie_value
        (MemoryStore.connector D) m now
      = (.ok (some (.unchanged body.current_id body.expiry body.data)),
          { m with log := m.log ++ [.readSession (SessionId.from_cookie_value cookie_value)] })
  ∧ store_session gen k fuel strategy (.unchanged body.current_id body.expiry body.data)
      (MemoryStore.connector D)
      { m with log := m.log ++ [.readSession (SessionId.from_cookie_value cookie_value)] } now
      = (.ok .doNothing,
          { m with log := m.log ++ [.readSession (SessionId.from_cookie_value cookie_value)] }) := by
  constructor
  · simp only [load_session, MemoryStore.connector, MemoryStore.read_session]
    rw [if_neg (not_not_intro hlen)]
    simp [hget, hexp, happ]
  · rfl

/-- Witness for the amended C5 theorem: under the Ignore strategy a stored
session loads and stores back with DoNothing. -/
theorem load_store_roundtrip_do_nothing_witness :
    load_session DefaultSessionCookieGenerator.COOKIE_LENGTH .ignore
        "AAAAAAAAAAAAAAAAAAAAAAAAAAAAAAAA" (MemoryStore.connector Int)
        ⟨[(⟨"AAAAAAAAAAAAAAAAAAAAAAAAAAAAAAAA"⟩,
            ⟨⟨"AAAAAAAAAAAAAAAAAAAAAAAAAAAAAAAA"⟩, .never, (7 : Int)⟩)], [], none⟩ 0
      = (.ok (some (.unchanged ⟨"AAAAAAAAAAAAAAAAAAAAAAAAAAAAAAAA"⟩ .never 7)),
          ⟨[(⟨"AAAAAAAAAAAAAAAAAAAAAAAAAAAAAAAA"⟩,
              ⟨⟨"AAAAAAAAAAAAAAAAAAAAAAAAAAAAAAAA"⟩, .never, (7 : Int)⟩)],
            [.readSession ⟨"AAAAAAAAAAAAAAAAAAAAAAAAAAAAAAAA"⟩], none⟩)
  ∧ store_session (fun _ => "ck0") 0 0 .ignore
      (.unchanged ⟨"AAAAAAAAAAAAAAAAAAAAAAAAAAAAAAAA"⟩ .never (7 : Int))
      (MemoryStore.connector Int)
      ⟨[(⟨"AAAAAAAAAAAAAAAAAAAAAAAAAAAAAAAA"⟩,
          ⟨⟨"AAAAAAAAAAAAAAAAAAAAAAAAAAAAAAAA"⟩, .never, (7 : Int)⟩)],
        [.readSession ⟨"AAAAAAAAAAAAAAAAAAAAAAAAAAAAAAAA"⟩], none⟩ 0
      = (.ok .doNothing,
          ⟨[(⟨"AAAAAAAAAAAAAAAAAAAAAAAAAAAAAAAA"⟩,
              ⟨⟨"AAAAAAAAAAAAAAAAAAAAAAAAAAAAAAAA"⟩, .never, (7 : Int)⟩)],
            [.readSession ⟨"AAAAAAAAAAAAAAAAAAAAAAAAAAAAAAAA"⟩], none⟩) :=
  load_store_roundtrip_do_nothing .ignore "AAAAAAAAAAAAAAAAAAAAAAAAAAAAAAAA"
    ⟨[(⟨"AAAAAAAAAAAAAAAAAAAAAAAAAAAAAAAA"⟩,
        ⟨⟨"AAAAAAAAAAAAAAAAAAAAAAAAAAAAAAAA"⟩, .never, (7 : Int)⟩)], [], none⟩ 0
    ⟨⟨"AAAAAAAAAAAAAAAAAAAAAAAAAAAAAAAA"⟩, .never, (7 : Int)⟩ (fun _ => "ck0") 0 0
    (by decide) (by decide) (by decide) (by decide)

theorem mapErase_key_not_mem {D : Type} (m : List (SessionId × SessionBody D)) (k : SessionId) :
    k ∉ (mapErase m k).map Prod.fst := by
  intro hmem
  rcases List.mem_map.mp hmem with ⟨p, hp, hk⟩
  rcases List.mem_filter.mp hp with ⟨_, hcond⟩
  simp [hk] at hcond

theorem mapErase_subset {D : Type} (m : List (SessionId × SessionBody D)) (k : SessionId)
    (p : SessionId × SessionBody D) (hp : p ∈ mapErase m k) : p ∈ m :=
  List.mem_of_mem_filter hp

theorem mapErase_wf {D : Type} (m : List (SessionId × SessionBody D)) (k : SessionId)
    (h : mapWf m) : mapWf (mapErase m k) := by
  refine ⟨?_, fun p hp => h.2 p (mapErase_subset m k p hp)⟩
  exact List.Nodup.sublist (List.Sublist.map Prod.fst (List.filter_sublist m)) h.1

theorem mapInsert_wf {D : Type} (m : List (SessionId × SessionBody D)) (k : SessionId)
    (v : SessionBody D) (h : mapWf m) (hv : v.current_id = k) : mapWf (mapInsert m k v) := by
  constructor
  · exact List.nodup_cons.mpr ⟨mapErase_key_not_mem m k, (mapErase_wf m k h).1⟩
  · intro p hp
    rcases List.mem_cons.mp hp with hph | hpt
    · rw [hph]
      exact hv
    · exact (mapErase_wf m k h).2 p hpt

theorem create_session_wf {D : Type} (id : SessionId) (e : SessionExpiry) (d : D)
    (store : MemoryStoreData D) (h : mapWf store.session_map) :
    mapWf (MemoryStore.create_session id e d store).2.session_map := by
  unfold MemoryStore.create_session
  by_cases hc : mapContainsKey store.session_map id
  · simpa [hc] using h
  · simpa [hc] using mapInsert_wf store.session_map id ⟨id, e, d⟩ h rfl

theorem update_session_wf {D : Type} (cur prev : SessionId) (e : SessionExpiry) (d : D)
    (store : MemoryStoreData D) (h : mapWf store.session_map) :
    mapWf (MemoryStore.update_session cur prev e d store).2.session_map := by
  unfold MemoryStore.update_session
  by_cases hc : mapContainsKey store.session_map cur
  · simpa [hc] using h
  · cases hget : mapGet store.session_map prev with
    | none => simpa [hc, hget] using h
    | some body =>
      simpa [hc, hget] using
        mapInsert_wf (mapErase store.session_map prev) cur
          { body with current_id := cur, expiry := e, data := d }
          (mapErase_wf store.session_map prev h) rfl

theorem apply_ops_wf {D : Type} (ops : List (StoreOp D)) (store : MemoryStoreData D)
    (h : mapWf store.session_map) : mapWf (apply_ops ops store).session_map := by
  induction ops generalizing store with
  | nil => exact h
  | cons op ops ih =>
    cases op with
    | create id e d => exact ih _ (create_session_wf id e d store h)
    | update cur prev e d => exact ih _ (update_session_wf cur prev e d store h)

/-- C7: after every sequence of create and update operations on the memory
store, every stored body's current_id equals the key it is stored under and
no two distinct stored sessions share a current_id; moreover create answers
SessionIdExists without inserting when the id is already present, and
update answers SessionIdExists without rebinding when the new id is already
present. -/
theorem memory_store_unique_ids {D : Type} (ops : List (StoreOp D)) :
    (∀ p ∈ (apply_ops ops (MemoryStore.empty D)).session_map, p.2.current_id = p.1)
  ∧ (apply_ops ops (MemoryStore.empty D)).session_map.Pairwise
      (fun p q => p.2.current_id ≠ q.2.current_id)
  ∧ (∀ (store : MemoryStoreData D) (id : SessionId) (e : SessionExpiry) (d : D),
      mapContainsKey store.session_map id = true →
        (MemoryStore.create_session id e d store).1 = .ok .sessionIdExists
        ∧ (MemoryStore.create_session id e d store).2.session_map = store.session_map)
  ∧ (∀ (store : MemoryStoreData D) (cur prev : SessionId) (e : SessionExpiry) (d : D),
      mapContainsKey store.session_map cur = true →
        (MemoryStore.update_session cur prev e d store).1 = .ok .sessionIdExists
        ∧ (MemoryStore.update_session cur prev e d store).2.session_map = store.session_map) := by
  have hwf : mapWf (apply_ops ops (MemoryStore.empty D)).session_map :=
    apply_ops_wf ops (MemoryStore.empty D) ⟨List.nodup_nil, by simp [MemoryStore.empty]⟩
  refine ⟨hwf.2, ?_, ?_, ?_⟩
  · have hkeys := (List.pairwise_map).mp hwf.1
    refine List.Pairwise.imp_of_mem ?_ hkeys
    intro p q hp hq hne
    rw [hwf.2 p hp, hwf.2 q hq]
    exact hne
  · intro store id e d h
    constructor
    · simp [MemoryStore.create_session, h]
    · simp [MemoryStore.create_session, h]
  · intro store cur prev e d h
    constructor
    · simp [MemoryStore.update_session, h]
    · simp [MemoryStore.update_session, h]

/-- Witness for the C7 theorem: after creating a session under one id and
rotating it to another, the surviving row's current_id equals its key, and
creating an already present id answers SessionIdExists. -/
theorem memory_store_unique_ids_witness :
    ((⟨"b"⟩, ⟨⟨"b"⟩, .never, (4 : Int)⟩) :
        SessionId × SessionBody Int).2.current_id = SessionId.mk "b"
  ∧ (MemoryStore.create_session ⟨"a"⟩ .never (5 : Int)
      ⟨[(⟨"a"⟩, ⟨⟨"a"⟩, .never, 3⟩)], [], none⟩).1 = .ok .sessionIdExists :=
  ⟨(memory_store_unique_ids
      [StoreOp.create ⟨"a"⟩ .never (3 : Int), StoreOp.update ⟨"b"⟩ ⟨"a"⟩ .never 4]).1
      _ (by decide),
   ((memory_store_unique_ids ([] : List (StoreOp Int))).2.2.1
      ⟨[(⟨"a"⟩, ⟨⟨"a"⟩, .never, 3⟩)], [], none⟩ ⟨"a"⟩ .never 5 (by decide)).1⟩

theorem range_map_shift {α : Type} (f : Nat → α) (n k : Nat) :
    (List.range (n + 1)).map (fun i => f (k + i))
      = f k :: ((List.range n).map fun i => f (k + 1 + i)) := by
  rw [List.range_succ_eq_map, List.map_cons, List.map_map]
  refine congrArg₂ _ (congrArg f (Nat.add_zero k)) ?_
  apply List.map_congr_left
  intro x hx
  simp only [Function.comp]
  exact congrArg f (by omega)

theorem try_store_session_changed_withLog {D C E : Type} (conn : Connector D C E)
    (gen : Nat → String) (prev : SessionId) (e : SessionExpiry) (d : D) (j : Nat)
    (s : C × List (ConnCall D)) :
    try_store_session gen j (.changed prev e d) conn.withLog s
      = logged_try
          (fun j c => conn.update_session (SessionId.from_cookie_value (gen j)) prev e d c)
          (fun j => .update (SessionId.from_cookie_value (gen j)) prev e d)
          (fun j => .set (gen j) e) j s := by
  rcases s with ⟨c, l⟩
  rcases h : conn.update_session (SessionId.from_cookie_value (gen j)) prev e d c with ⟨r, c1⟩
  cases r with
  | error err => simp [try_store_session, Connector.withLog, logged_try, h]
  | ok w => cases w <;> simp [try_store_session, Connector.withLog, logged_try, h]

theorem try_store_session_newChanged_withLog {D C E : Type} (conn : Connector D C E)
    (gen : Nat → String) (e : SessionExpiry) (d : D) (j : Nat)
    (s : C × List (ConnCall D)) :
    try_store_session gen j (.newChanged e d) conn.withLog s
      = logged_try
          (fun j c => conn.create_session (SessionId.from_cookie_value (gen j)) e d c)
          (fun j => .create (SessionId.from_cookie_value (gen j)) e d)
          (fun j => .set (gen j) e) j s := by
  rcases s with ⟨c, l⟩
  rcases h : conn.create_session (SessionId.from_cookie_value (gen j)) e d c with ⟨r, c1⟩
  cases r with
  | error err => simp [try_store_session, Connector.withLog, logged_try, h]
  | ok w => cases w <;> simp [try_store_session, Connector.withLog, logged_try, h]

theorem logged_retry_trace {D C E : Type}
    (op : Nat → C → (Except (Error E) WriteSessionResult) × C)
    (call : Nat → ConnCall D) (cmd : Nat → SessionCookieCommand) :
    ∀ (R k : Nat) (c : C) (l : List (ConnCall D)),
      ∃ n c', n ≤ R ∧
        (retry_loop (logged_try op call cmd) R k (c, l)).2
          = (c', l ++ (List.range n).map fun i => call (k + i)) := by
  intro R
  induction R with
  | zero =>
    intro k c l
    exact ⟨0, c, Nat.le_refl 0, by simp [retry_loop]⟩
  | succ R ih =>
    intro k c l
    rcases h : op k c with ⟨r, c1⟩
    cases r with
    | error err =>
      refine ⟨1, c1, Nat.succ_le_succ (Nat.zero_le R), ?_⟩
      simp [retry_loop, logged_try, h, List.range_succ]
    | ok w =>
      cases w with
      | ok =>
        refine ⟨1, c1, Nat.succ_le_succ (Nat.zero_le R), ?_⟩
        simp [retry_loop, logged_try, h, List.range_succ]
      | sessionIdExists =>
        obtain ⟨n, c', hn, heq⟩ := ih (k + 1) c1 (l ++ [call k])
        refine ⟨n + 1, c', Nat.succ_le_succ hn, ?_⟩
        rw [retry_loop]
        simp only [logged_try, h]
        rw [heq, range_map_shift call n k]
        simp [List.append_assoc]

theorem logged_retry_exhaust {D C E : Type}
    (op : Nat → C → (Except (Error E) WriteSessionResult) × C)
    (call : Nat → ConnCall D) (cmd : Nat → SessionCookieCommand)
    (hall : ∀ (j : Nat) (c : C), (op j c).1 = .ok .sessionIdExists) :
    ∀ (R k : Nat) (c : C) (l : List (ConnCall D)),
      ∃ c', retry_loop (logged_try op call cmd) R k (c, l)
        = (none, (c', l ++ (List.range R).map fun i => call (k + i))) := by
  intro R
  induction R with
  | zero =>
    intro k c l
    exact ⟨c, by simp [retry_loop]⟩
  | succ R ih =>
    intro k c l
    rcases h : op k c with ⟨r, c1⟩
    have hr : r = .ok .sessionIdExists := by
      have := hall k c
      rwa [h] at this
    subst hr
    obtain ⟨c', heq⟩ := ih (k + 1) c1 (l ++ [call k])
    refine ⟨c', ?_⟩
    rw [retry_loop]
    simp only [logged_try, h]
    rw [heq, range_map_shift call R k]
    simp [List.append_assoc]

theorem store_session_changed_of_retry_some {D C E : Type} (gen : Nat → String)
    (k fuel R : Nat) (strategy : SessionRenewalStrategy) (prev : SessionId) (e : SessionExpiry)
    (d : D) (conn : Connector D C E) (c c' : C) (now : Instant) (out : StoreOutcome E)
    (h : conn.maximum_retries_on_id_collision c = some R)
    (hr : retry_loop (fun j c => try_store_session gen j (.changed prev e d) conn c) R k c
        = (some out, c')) :
    store_session gen k fuel strategy (.changed prev e d) conn c now = (out, c') := by
  simp [store_session, SessionState.is_changed_or_deleted_for_store, h, hr]

theorem store_session_changed_of_retry_none {D C E : Type} (gen : Nat → String)
    (k fuel R : Nat) (strategy : SessionRenewalStrategy) (prev : SessionId) (e : SessionExpiry)
    (d : D) (conn : Connector D C E) (c c' : C) (now : Instant)
    (h : conn.maximum_retries_on_id_collision c = some R)
    (hr : retry_loop (fun j c => try_store_session gen j (.changed prev e d) conn c) R k c
        = (none, c')) :
    store_session gen k fuel strategy (.changed prev e d) conn c now
      = (.error (.maximumSessionIdGenerationTriesReached R), c') := by
  simp [store_session, SessionState.is_changed_or_deleted_for_store, h, hr]

theorem store_session_newChanged_of_retry_some {D C E : Type} (gen : Nat → String)
    (k fuel R : Nat) (strategy : SessionRenewalStrategy) (e e2 : SessionExpiry)
    (d : D) (conn : Connector D C E) (c c' : C) (now : Instant) (out : StoreOutcome E)
    (h : conn.maximum_retries_on_id_collision c = some R)
    (happ : strategy.apply_to_session (.newChanged e d) now = some (.newChanged e2 d))
    (hr : retry_loop (fun j c => try_store_session gen j (.newChanged e2 d) conn c) R k c
        = (some out, c')) :
    store_session gen k fuel strategy (.newChanged e d) conn c now = (out, c') := by
  simp [store_session, SessionState.is_changed_or_deleted_for_store, h, happ, hr]

theorem store_session_newChanged_of_retry_none {D C E : Type} (gen : Nat → String)
    (k fuel R : Nat) (strategy : SessionRenewalStrategy) (e e2 : SessionExpiry)
    (d : D) (conn : Connector D C E) (c c' : C) (now : Instant)
    (h : conn.maximum_retries_on_id_collision c = some R)
    (happ : strategy.apply_to_session (.newChanged e d) now = some (.newChanged e2 d))
    (hr : retry_loop (fun j c => try_store_session gen j (.newChanged e2 d) conn c) R k c
        = (none, c')) :
    store_session gen k fuel strategy (.newChanged e d) conn c now
      = (.error (.maximumSessionIdGenerationTriesReached R), c') := by
  simp [store_session, SessionState.is_changed_or_deleted_for_store, h, happ, hr]

/-- C2: for a session in the NewChanged or Changed state and a connector
whose maximum_retries_on_id_collision is some R, store_session makes at
most R create resp. update attempts, attempt i using the freshly generated
cookie gen (k + i); it returns as soon as an attempt does not answer
SessionIdExists (propagating a connector error immediately, or returning
Set on success after exactly one call), and when every attempt answers
SessionIdExists it makes exactly R attempts and fails with
MaximumSessionIdGenerationTriesReached R. For a NewChanged session the
renewal strategy is applied first, rewriting the expiry to e2. -/
theorem store_session_retry_loop_spec {D C E : Type} (conn : Connector D C E)
    (gen : Nat → String) (k fuel : Nat) (now : Instant) (prev : SessionId)
    (e e2 : SessionExpiry) (d : D) (R : Nat) (c : C) (l : List (ConnCall D))
    (strategy : SessionRenewalStrategy) :
    (conn.maximum_retries_on_id_collision c = some R →
      ∃ n c', n ≤ R ∧
        (store_session gen k fuel strategy (.changed prev e d) conn.withLog (c, l) now).2
          = (c', l ++ (List.range n).map fun i =>
              ConnCall.update (SessionId.from_cookie_value (gen (k + i))) prev e d))
  ∧ (conn.maximum_retries_on_id_collision c = some R →
      (∀ (cur : SessionId) (c0 : C),
        (conn.update_session cur prev e d c0).1 = .ok .sessionIdExists) →
      ∃ c', store_session gen k fuel strategy (.changed prev e d) conn.withLog (c, l) now
        = (.error (.maximumSessionIdGenerationTriesReached R),
            (c', l ++ (List.range R).map fun i =>
              ConnCall.update (SessionId.from_cookie_value (gen (k + i))) prev e d)))
  ∧ (conn.maximum_retries_on_id_collision c = some R → 0 < R →
      ∀ (err : Error E) (c1 : C),
        conn.update_session (SessionId.from_cookie_value (gen k)) prev e d c
            = (.error err, c1) →
        store_session gen k fuel strategy (.changed prev e d) conn.withLog (c, l) now
          = (.error err,
              (c1, l ++ [ConnCall.update (SessionId.from_cookie_value (gen k)) prev e d])))
  ∧ (conn.maximum_retries_on_id_collision c = some R → 0 < R →
      ∀ c1 : C,
        conn.update_session (SessionId.from_cookie_value (gen k)) prev e d c = (.ok .ok, c1) →
        store_session gen k fuel strategy (.changed prev e d) conn.withLog (c, l) now
          = (.ok (.set (gen k) e),
              (c1, l ++ [ConnCall.update (SessionId.from_cookie_value (gen k)) prev e d])))
  ∧ (conn.maximum_retries_on_id_collision c = some R →
      strategy.apply_to_session (.newChanged e d) now = some (.newChanged e2 d) →
      ∃ n c', n ≤ R ∧
        (store_session gen k fuel strategy (.newChanged e d) conn.withLog (c, l) now).2
          = (c', l ++ (List.range n).map fun i =>
              ConnCall.create (SessionId.from_cookie_value (gen (k + i))) e2 d))
  ∧ (conn.maximum_retries_on_id_collision c = some R →
      strategy.apply_to_session (.newChanged e d) now = some (.newChanged e2 d) →
      (∀ (cur : SessionId) (c0 : C),
        (conn.create_session cur e2 d c0).1 = .ok .sessionIdExists) →
      ∃ c', store_session gen k fuel strategy (.newChanged e d) conn.withLog (c, l) now
        = (.error (.maximumSessionIdGenerationTriesReached R),
            (c', l ++ (List.range R).map fun i =>
              ConnCall.create (SessionId.from_cookie_value (gen (k + i))) e2 d)))
  ∧ (conn.maximum_retries_on_id_collision c = some R →
      strategy.apply_to_session (.newChanged e d) now = some (.newChanged e2 d) → 0 < R →
      ∀ (err : Error E) (c1 : C),
        conn.create_session (SessionId.from_cookie_value (gen k)) e2 d c = (.error err, c1) →
        store_session gen k fuel strategy (.newChanged e d) conn.withLog (c, l) now
          = (.error err,
              (c1, l ++ [ConnCall.create (SessionId.from_cookie_value (gen k)) e2 d])))
  ∧ (conn.maximum_retries_on_id_collision c = some R →
      strategy.apply_to_session (.newChanged e d) now = some (.newChanged e2 d) → 0 < R →
      ∀ c1 : C,
        conn.create_session (SessionId.from_cookie_value (gen k)) e2 d c = (.ok .ok, c1) →
        store_session gen k fuel strategy (.newChanged e d) conn.withLog (c, l) now
          = (.ok (.set (gen k) e2),
              (c1, l ++ [ConnCall.create (SessionId.from_cookie_value (gen k)) e2 d]))) := by
  have hfunU : (fun (j : Nat) (s : C × List (ConnCall D)) =>
      try_store_session gen j (SessionState.changed prev e d) conn.withLog s)
      = logged_try
          (fun j c => conn.update_session (SessionId.from_cookie_value (gen j)) prev e d c)
          (fun j => ConnCall.update (SessionId.from_cookie_value (gen j)) prev e d)
          (fun j => SessionCookieCommand.set (gen j) e) :=
    funext fun j => funext fun s => try_store_session_changed_withLog conn gen prev e d j s
  have hfunC : (fun (j : Nat) (s : C × List (ConnCall D)) =>
      try_store_session gen j (SessionState.newChanged e2 d) conn.withLog s)
      = logged_try
          (fun j c => conn.create_session (SessionId.from_cookie_value (gen j)) e2 d c)
          (fun j => ConnCall.create (SessionId.from_cookie_value (gen j)) e2 d)
          (fun j => SessionCookieCommand.set (gen j) e2) :=
    funext fun j => funext fun s => try_store_session_newChanged_withLog conn gen e2 d j s
  refine ⟨?_, ?_, ?_, ?_, ?_, ?_, ?_, ?_⟩
  · intro hmax
    obtain ⟨n, c', hn, heq⟩ := logged_retry_trace
      (fun j c => conn.update_session (SessionId.from_cookie_value (gen j)) prev e d c)
      (fun j => ConnCall.update (SessionId.from_cookie_value (gen j)) prev e d)
      (fun j => SessionCookieCommand.set (gen j) e) R k c l
    rcases hr : retry_loop (logged_try
        (fun j c => conn.update_session (SessionId.from_cookie_value (gen j)) prev e d c)
        (fun j => ConnCall.update (SessionId.from_cookie_value (gen j)) prev e d)
        (fun j => SessionCookieCommand.set (gen j) e)) R k (c, l) with ⟨o, s'⟩
    rw [hr] at heq
    have hr' : retry_loop (fun j s =>
        try_store_session gen j (SessionState.changed prev e d) conn.withLog s) R k (c, l)
        = (o, s') := by
      rw [hfunU]
      exact hr
    refine ⟨n, c', hn, ?_⟩
    cases o with
    | some out =>
      rw [store_session_changed_of_retry_some gen k fuel R strategy prev e d conn.withLog
        (c, l) s' now out hmax hr']
      exact heq
    | none =>
      rw [store_session_changed_of_retry_none gen k fuel R strategy prev e d conn.withLog
        (c, l) s' now hmax hr']
      exact heq
  · intro hmax hall
    obtain ⟨c', heq⟩ := logged_retry_exhaust
      (fun j c => conn.update_session (SessionId.from_cookie_value (gen j)) prev e d c)
      (fun j => ConnCall.update (SessionId.from_cookie_value (gen j)) prev e d)
      (fun j => SessionCookieCommand.set (gen j) e)
      (fun j c0 => hall (SessionId.from_cookie_value (gen j)) c0) R k c l
    refine ⟨c', ?_⟩
    have hr' : retry_loop (fun j s =>
        try_store_session gen j (SessionState.changed prev e d) conn.withLog s) R k (c, l)
        = (none, (c', l ++ (List.range R).map fun i =>
            ConnCall.update (SessionId.from_cookie_value (gen (k + i))) prev e d)) := by
      rw [hfunU]
      exact heq
    exact store_session_changed_of_retry_none gen k fuel R strategy prev e d conn.withLog
      (c, l) _ now hmax hr'
  · intro hmax hR err c1 h
    obtain ⟨R', rfl⟩ : ∃ R', R = R' + 1 := ⟨R - 1, by omega⟩
    have hstep : retry_loop (logged_try
        (fun j c => conn.update_session (SessionId.from_cookie_value (gen j)) prev e d c)
        (fun j => ConnCall.update (SessionId.from_cookie_value (gen j)) prev e d)
        (fun j => SessionCookieCommand.set (gen j) e)) (R' + 1) k (c, l)
        = (some (.error err),
            (c1, l ++ [ConnCall.update (SessionId.from_cookie_value (gen k)) prev e d])) := by
      rw [retry_loop]
      simp [logged_try, h]
    have hr' : retry_loop (fun j s =>
        try_store_session gen j (SessionState.changed prev e d) conn.withLog s)
        (R' + 1) k (c, l)
        = (some (.error err),
            (c1, l ++ [ConnCall.update (SessionId.from_cookie_value (gen k)) prev e d])) := by
      rw [hfunU]
      exact hstep
    exact store_session_changed_of_retry_some gen k fuel (R' + 1) strategy prev e d
      conn.withLog (c, l) _ now _ hmax hr'
  · intro hmax hR c1 h
    obtain ⟨R', rfl⟩ : ∃ R', R = R' + 1 := ⟨R - 1, by omega⟩
    have hstep : retry_loop (logged_try
        (fun j c => conn.update_session (SessionId.from_cookie_value (gen j)) prev e d c)
        (fun j => ConnCall.update (SessionId.from_cookie_value (gen j)) prev e d)
        (fun j => SessionCookieCommand.set (gen j) e)) (R' + 1) k (c, l)
        = (some (.ok (.set (gen k) e)),
            (c1, l ++ [ConnCall.update (SessionId.from_cookie_value (gen k)) prev e d])) := by
      rw [retry_loop]
      simp [logged_try, h]
    have hr' : retry_loop (fun j s =>
        try_store_session gen j (SessionState.changed prev e d) conn.withLog s)
        (R' + 1) k (c, l)
        = (some (.ok (.set (gen k) e)),
            (c1, l ++ [ConnCall.update (SessionId.from_cookie_value (gen k)) prev e d])) := by
      rw [hfunU]
      exact hstep
    exact store_session_changed_of_retry_some gen k fuel (R' + 1) strategy prev e d
      conn.withLog (c, l) _ now _ hmax hr'
  · intro hmax happ
    obtain ⟨n, c', hn, heq⟩ := logged_retry_trace
      (fun j c => conn.create_session (SessionId.from_cookie_value (gen j)) e2 d c)
      (fun j => ConnCall.create (SessionId.from_cookie_value (gen j)) e2 d)
      (fun j => SessionCookieCommand.set (gen j) e2) R k c l
    rcases hr : retry_loop (logged_try
        (fun j c => conn.create_session (SessionId.from_cookie_value (gen j)) e2 d c)
        (fun j => ConnCall.create (SessionId.from_cookie_value (gen j)) e2 d)
        (fun j => SessionCookieCommand.set (gen j) e2)) R k (c, l) with ⟨o, s'⟩
    rw [hr] at heq
    have hr' : retry_loop (fun j s =>
        try_store_session gen j (SessionState.newChanged e2 d) conn.withLog s) R k (c, l)
        = (o, s') := by
      rw [hfunC]
      exact hr
    refine ⟨n, c', hn, ?_⟩
    cases o with
    | some out =>
      rw [store_session_newChanged_of_retry_some gen k fuel R strategy e e2 d conn.withLog
        (c, l) s' now out hmax happ hr']
      exact heq
    | none =>
      rw [store_session_newChanged_of_retry_none gen k fuel R strategy e e2 d conn.withLog
        (c, l) s' now hmax happ hr']
      exact heq
  · intro hmax happ hall
    obtain ⟨c', heq⟩ := logged_retry_exhaust
      (fun j c => conn.create_session (SessionId.from_cookie_value (gen j)) e2 d c)
      (fun j => ConnCall.create (SessionId.from_cookie_value (gen j)) e2 d)
      (fun j => SessionCookieCommand.set (gen j) e2)
      (fun j c0 => hall (SessionId.from_cookie_value (gen j)) c0) R k c l
    refine ⟨c', ?_⟩
    have hr' : retry_loop (fun j s =>
        try_store_session gen j (SessionState.newChanged e2 d) conn.withLog s) R k (c, l)
        = (none, (c', l ++ (List.range R).map fun i =>
            ConnCall.create (SessionId.from_cookie_value (gen (k + i))) e2 d)) := by
      rw [hfunC]
      exact heq
    exact store_session_newChanged_of_retry_none gen k fuel R strategy e e2 d conn.withLog
      (c, l) _ now hmax happ hr'
  · intro hmax happ hR err c1 h
    obtain ⟨R', rfl⟩ : ∃ R', R = R' + 1 := ⟨R - 1, by omega⟩
    have hstep : retry_loop (logged_try
        (fun j c => conn.create_session (SessionId.from_cookie_value (gen j)) e2 d c)
        (fun j => ConnCall.create (SessionId.from_cookie_value (gen j)) e2 d)
        (fun j => SessionCookieCommand.set (gen j) e2)) (R' + 1) k (c, l)
        = (some (.error err),
            (c1, l ++ [ConnCall.create (SessionId.from_cookie_value (gen k)) e2 d])) := by
      rw [retry_loop]
      simp [logged_try, h]
    have hr' : retry_loop (fun j s =>
        try_store_session gen j (SessionState.newChanged e2 d) conn.withLog s)
        (R' + 1) k (c, l)
        = (some (.error err),
            (c1, l ++ [ConnCall.create (SessionId.from_cookie_value (gen k)) e2 d])) := by
      rw [hfunC]
      exact hstep
    exact store_session_newChanged_of_retry_some gen k fuel (R' + 1) strategy e e2 d
      conn.withLog (c, l) _ now _ hmax happ hr'
  · intro hmax happ hR c1 h
    obtain ⟨R', rfl⟩ : ∃ R', R = R' + 1 := ⟨R - 1, by omega⟩
    have hstep : retry_loop (logged_try
        (fun j c => conn.create_session (SessionId.from_cookie_value (gen j)) e2 d c)
        (fun j => ConnCall.create (SessionId.from_cookie_value (gen j)) e2 d)
        (fun j => SessionCookieCommand.set (gen j) e2)) (R' + 1) k (c, l)
        = (some (.ok (.set (gen k) e2)),
            (c1, l ++ [ConnCall.create (SessionId.from_cookie_value (gen k)) e2 d])) := by
      rw [retry_loop]
      simp [logged_try, h]
    have hr' : retry_loop (fun j s =>
        try_store_session gen j (SessionState.newChanged e2 d) conn.withLog s)
        (R' + 1) k (c, l)
        = (some (.ok (.set (gen k) e2)),
            (c1, l ++ [ConnCall.create (SessionId.from_cookie_value (gen k)) e2 d])) := by
      rw [hfunC]
      exact hstep
    exact store_session_newChanged_of_retry_some gen k fuel (R' + 1) strategy e e2 d
      conn.withLog (c, l) _ now _ hmax happ hr'

/-- Witness for the C2 theorem: against the always colliding connector with
retry bound two, storing a Changed session makes exactly two update
attempts, each with the generated cookie, and fails with
MaximumSessionIdGenerationTriesReached 2. -/
theorem store_session_retry_loop_spec_witness :
    ∃ c', store_session (fun _ => "g") 0 0 .ignore
        (.changed ⟨"p"⟩ .never (0 : Int)) collide_connector.withLog (0, []) 0
      = (.error (.maximumSessionIdGenerationTriesReached 2),
          (c', [ConnCall.update ⟨"g"⟩ ⟨"p"⟩ .never 0, ConnCall.update ⟨"g"⟩ ⟨"p"⟩ .never 0])) :=
  (store_session_retry_loop_spec collide_connector (fun _ => "g") 0 0 0 ⟨"p"⟩ .never .never
      (0 : Int) 2 0 [] .ignore).2.1 rfl (fun _ _ => rfl)

end TypedSession
